import Mathlib

/-!
Verification of the Task-Manager client-side session and task state
controller (`src/frontend/src/App.tsx`), the kanban categorizer
(`src/frontend/src/components/TaskList.tsx`) and the auth form
(`src/frontend/src/components/AuthForm.tsx`).

The React component state is embedded as an explicit state record
(`AppState`); each event handler becomes a pure function from state (and
the outcomes of the network round-trips it awaits) to a new state paired
with the list of HTTP requests it issued.  `useState` setters become
record updates applied in source order; early `return` becomes the
corresponding branch; `try/catch/finally` becomes a case split on the
outcome with the `finally` update applied on every branch.
-/

namespace TaskManager

/-! ## Data model (`src/frontend/src/types.ts`) -/

/-- `TaskStatus` from `types.ts`: `'todo' | 'in_progress' | 'done'`. -/
inductive TaskStatus where
  | todo
  | in_progress
  | done
deriving DecidableEq, Repr

/-- `User` from `types.ts`. -/
structure User where
  id : Nat
  name : String
  email : String
  createdAt : Option String := none
  updatedAt : Option String := none
deriving DecidableEq, Repr

/-- `Task` from `types.ts`.  `description` and `userId` are nullable,
`assignee` is optional. -/
structure Task where
  id : Nat
  title : String
  description : Option String := none
  status : TaskStatus
  userId : Option Nat := none
  assignee : Option User := none
  createdAt : String := ""
  updatedAt : String := ""
deriving DecidableEq, Repr

/-- `TaskPayload` from `types.ts`. -/
structure TaskPayload where
  title : String
  description : Option String := none
  userId : Option Nat := none
  status : Option TaskStatus := none
deriving DecidableEq, Repr

/-- `FilterOption` from `App.tsx`: `'all' | 'todo' | 'in_progress' | 'done'`. -/
inductive FilterOption where
  | all
  | todo
  | in_progress
  | done
deriving DecidableEq, Repr

/-- `AuthMode` from `AuthForm.tsx`: `'login' | 'register'`. -/
inductive AuthMode where
  | login
  | register
deriving DecidableEq, Repr

/-! ## Network requests and outcomes

Each event handler of `App.tsx` awaits at most two HTTP round-trips (its
own call, then the task refresh on success).  A round-trip's observable
outcome for the handler is: 2xx with a parsed body, a 401, or any other
failure condensed to the error string the handler stores (for a non-2xx
response that string is the one produced by `extractErrorMessage`; for a
network-level rejection it is the handler's fallback message). -/

/-- The requests the controller can issue, with the exact body it sends. -/
inductive Request where
  | getUsers
  | getTasks
  | postTask (payload : TaskPayload)
  | putTask (id : Nat) (payload : TaskPayload)
  | patchTask (id : Nat) (status : TaskStatus)
  | deleteTask (id : Nat)
deriving DecidableEq, Repr

/-- Outcome of one awaited round-trip, as seen by the handler:
`ok` carries the parsed success body, `unauthorized` is HTTP 401, and
`failure` carries the message the handler's `catch` stores. -/
inductive Outcome (α : Type) where
  | ok (data : α)
  | unauthorized
  | failure (msg : String)
deriving DecidableEq, Repr

/-! ## Controller state (`App.tsx` lines 17–32) -/

/-- The sixteen `useState` slots of the `App` component, in source order. -/
structure AppState where
  currentUser : Option User
  authMode : AuthMode
  authLoading : Bool
  authSubmitting : Bool
  authError : Option String
  tasks : List Task
  users : List User
  filter : FilterOption
  tasksLoading : Bool
  usersLoading : Bool
  error : Option String
  isFormVisible : Bool
  editingTask : Option Task
  isSubmitting : Bool
  busyTaskId : Option Nat
  pendingDeleteTask : Option Task
deriving DecidableEq, Repr

/-- `closeForm` (App.tsx 34–37). -/
def closeForm (s : AppState) : AppState :=
  { s with isFormVisible := false, editingTask := none }

/-- `resetSession` (App.tsx 39–54): closes the form, clears tasks, users,
busy marker, editing target, pending deletion, identity, error banner,
resets the filter and auth mode, and sets `authError` to the given
message (or clears it). -/
def resetSession (message : Option String) (s : AppState) : AppState :=
  { closeForm s with
    tasks := []
    users := []
    busyTaskId := none
    editingTask := none
    pendingDeleteTask := none
    currentUser := none
    error := none
    filter := FilterOption.all
    authMode := AuthMode.login
    authError := message }

/-- The fixed session-expiry message passed by `handleUnauthorized`
(App.tsx 56–58). -/
def sessionExpiredMessage : String := "Your session has expired. Please log in again."

/-- `handleUnauthorized` (App.tsx 56–58). -/
def handleUnauthorized (s : AppState) : AppState :=
  resetSession (some sessionExpiredMessage) s

/-! ## Collection Synchronizer (`loadUsers`, `refreshTasks`, App.tsx 75–117) -/

/-- `loadUsers` (App.tsx 75–95): sets the users loading flag, issues
`GET /api/users`, on 401 delegates to `handleUnauthorized`, on other
failure stores the error message, on success replaces the user
collection and clears the error; the loading flag is cleared in
`finally`. -/
def loadUsersRun (o : Outcome (List User)) (s : AppState) : AppState × List Request :=
  let s1 := { s with usersLoading := true }
  let s2 :=
    match o with
    | Outcome.ok data => { s1 with users := data, error := none }
    | Outcome.unauthorized => handleUnauthorized s1
    | Outcome.failure m => { s1 with error := some m }
  ({ s2 with usersLoading := false }, [Request.getUsers])

/-- `refreshTasks` (App.tsx 97–117): same shape as `loadUsers`, for
`GET /api/tasks?status=all` and the task collection. -/
def refreshTasksRun (o : Outcome (List Task)) (s : AppState) : AppState × List Request :=
  let s1 := { s with tasksLoading := true }
  let s2 :=
    match o with
    | Outcome.ok data => { s1 with tasks := data, error := none }
    | Outcome.unauthorized => handleUnauthorized s1
    | Outcome.failure m => { s1 with error := some m }
  ({ s2 with tasksLoading := false }, [Request.getTasks])

/-! ## Task Mutation Coordinator (App.tsx 252–376)

Each mutation handler is split into its synchronous prelude (the state
updates performed before the `fetch` suspends) and the full run.  A
mutation that succeeds then awaits `refreshTasks`, so the full run also
takes the refresh round-trip's outcome. -/

/-- Prelude of `handleCreateTask` (App.tsx 253–254): sets the submission
flag and clears the error banner.  It does not touch the busy marker. -/
def handleCreateTaskStart (s : AppState) : AppState :=
  { s with isSubmitting := true, error := none }

/-- Body sent by `handleCreateTask` (App.tsx 260):
`{...payload, status: payload.status ?? 'todo'}`. -/
def createBody (p : TaskPayload) : TaskPayload :=
  { p with status := some (p.status.getD TaskStatus.todo) }

/-- `handleCreateTask` (App.tsx 252–277).  `o` is the POST outcome, `ro`
the outcome of the `refreshTasks` awaited on success. -/
def handleCreateTask (p : TaskPayload) (o : Outcome Unit) (ro : Outcome (List Task))
    (s : AppState) : AppState × List Request :=
  let s1 := handleCreateTaskStart s
  match o with
  | Outcome.unauthorized =>
      ({ handleUnauthorized s1 with isSubmitting := false }, [Request.postTask (createBody p)])
  | Outcome.failure m =>
      ({ s1 with error := some m, isSubmitting := false }, [Request.postTask (createBody p)])
  | Outcome.ok _ =>
      let pr := refreshTasksRun ro s1
      ({ closeForm pr.1 with isSubmitting := false }, Request.postTask (createBody p) :: pr.2)

/-- Prelude of `handleUpdateTask` (App.tsx 280–284): early return when no
task is being edited, otherwise sets the submission flag and clears the
error banner.  It does not touch the busy marker. -/
def handleUpdateTaskStart (s : AppState) : AppState :=
  match s.editingTask with
  | none => s
  | some _ => { s with isSubmitting := true, error := none }

/-- Body sent by `handleUpdateTask` (App.tsx 290–293):
`{...payload, status: payload.status ?? editingTask.status}`. -/
def updateBody (p : TaskPayload) (editing : Task) : TaskPayload :=
  { p with status := some (p.status.getD editing.status) }

/-- `handleUpdateTask` (App.tsx 279–310). -/
def handleUpdateTask (p : TaskPayload) (o : Outcome Unit) (ro : Outcome (List Task))
    (s : AppState) : AppState × List Request :=
  match s.editingTask with
  | none => (s, [])
  | some editing =>
      let s1 := { s with isSubmitting := true, error := none }
      let req := Request.putTask editing.id (updateBody p editing)
      match o with
      | Outcome.unauthorized =>
          ({ handleUnauthorized s1 with isSubmitting := false }, [req])
      | Outcome.failure m =>
          ({ s1 with error := some m, isSubmitting := false }, [req])
      | Outcome.ok _ =>
          let pr := refreshTasksRun ro s1
          ({ closeForm pr.1 with isSubmitting := false }, req :: pr.2)

/-- `handleDeleteTask` (App.tsx 312–314): stages the task for deletion,
with no guard and no network call. -/
def handleDeleteTask (task : Task) (s : AppState) : AppState :=
  { s with pendingDeleteTask := some task }

/-- Prelude of `handleConfirmDelete` (App.tsx 317–322): early return when
no deletion is pending, otherwise sets the busy marker to the staged
task's id and clears the error banner. -/
def handleConfirmDeleteStart (s : AppState) : AppState :=
  match s.pendingDeleteTask with
  | none => s
  | some task => { s with busyTaskId := some task.id, error := none }

/-- `handleConfirmDelete` (App.tsx 316–343): on success refreshes tasks
and clears the pending deletion; the busy marker is cleared in
`finally` on every branch. -/
def handleConfirmDelete (o : Outcome Unit) (ro : Outcome (List Task))
    (s : AppState) : AppState × List Request :=
  match s.pendingDeleteTask with
  | none => (s, [])
  | some task =>
      let s1 := { s with busyTaskId := some task.id, error := none }
      let req := Request.deleteTask task.id
      match o with
      | Outcome.unauthorized =>
          ({ handleUnauthorized s1 with busyTaskId := none }, [req])
      | Outcome.failure m =>
          ({ s1 with error := some m, busyTaskId := none }, [req])
      | Outcome.ok _ =>
          let pr := refreshTasksRun ro s1
          ({ pr.1 with pendingDeleteTask := none, busyTaskId := none }, req :: pr.2)

/-- `handleCancelDelete` (App.tsx 345–350): ignored when the busy marker
is non-null and equals the pending task's id; otherwise clears the
pending deletion. -/
def handleCancelDelete (s : AppState) : AppState :=
  match s.busyTaskId, s.pendingDeleteTask with
  | some b, some task =>
      if b = task.id then s else { s with pendingDeleteTask := none }
  | _, _ => { s with pendingDeleteTask := none }

/-- Prelude of `handleUpdateStatus` (App.tsx 353–354): sets the busy
marker to the target task's id and clears the error banner. -/
def handleUpdateStatusStart (task : Task) (s : AppState) : AppState :=
  { s with busyTaskId := some task.id, error := none }

/-- `handleUpdateStatus` (App.tsx 352–376): `PATCH /api/tasks/{id}` with
the next status; refreshes tasks on success; busy marker cleared in
`finally` on every branch. -/
def handleUpdateStatus (task : Task) (nextStatus : TaskStatus)
    (o : Outcome Unit) (ro : Outcome (List Task))
    (s : AppState) : AppState × List Request :=
  let s1 := handleUpdateStatusStart task s
  let req := Request.patchTask task.id nextStatus
  match o with
  | Outcome.unauthorized =>
      ({ handleUnauthorized s1 with busyTaskId := none }, [req])
  | Outcome.failure m =>
      ({ s1 with error := some m, busyTaskId := none }, [req])
  | Outcome.ok _ =>
      let pr := refreshTasksRun ro s1
      ({ pr.1 with busyTaskId := none }, req :: pr.2)

/-- `openCreateForm` (App.tsx 171–174): clears the edit target and shows
the form, with no guard on a pending deletion. -/
def openCreateForm (s : AppState) : AppState :=
  { s with editingTask := none, isFormVisible := true }

/-- The `onEdit` callback passed to `TaskList` (App.tsx 460–463): sets
the edit target and shows the form, with no guard on a pending
deletion. -/
def openEditForm (task : Task) (s : AppState) : AppState :=
  { s with editingTask := some task, isFormVisible := true }

/-! ## Error Extractor (`extractErrorMessage`, App.tsx 60–73)

The response body is modelled as `Option Json`: `none` when
`response.json()` rejects (the `catch` branch), `some payload`
otherwise.  JavaScript member access, truthiness, and `Array.join`
string conversion are embedded explicitly so the function follows the
source line by line. -/

/-- A parsed JSON value. -/
inductive Json where
  | null
  | bool (b : Bool)
  | num (n : Int)
  | str (s : String)
  | arr (items : List Json)
  | obj (fields : List (String × Json))

/-- First field with the given key, if any. -/
def findField (key : String) : List (String × Json) → Option Json
  | [] => none
  | (k, v) :: rest => if k = key then some v else findField key rest

/-- `payload?.field` (optional chaining): a field access on a
non-object, including `null`, yields `undefined` (here `none`) at this
position without throwing. -/
def getField (j : Json) (key : String) : Option Json :=
  match j with
  | Json.obj fields => findField key fields
  | _ => none

/-- JavaScript truthiness of a JSON value. -/
def truthy : Json → Bool
  | Json.null => false
  | Json.bool b => b
  | Json.num n => n != 0
  | Json.str s => s != ""
  | Json.arr _ => true
  | Json.obj _ => true

mutual

/-- JavaScript string conversion as used by `Array.prototype.join`. -/
def jsToString : Json → String
  | Json.null => "null"
  | Json.bool true => "true"
  | Json.bool false => "false"
  | Json.num n => toString n
  | Json.str s => s
  | Json.arr items => jsJoinComma items
  | Json.obj _ => "[object Object]"

/-- `Array.prototype.toString`: elements joined with `","`. -/
def jsJoinComma : List Json → String
  | [] => ""
  | [x] => jsToString x
  | x :: rest => jsToString x ++ "," ++ jsJoinComma rest

end

/-- `payload.errors.map((err) => err.msg)` (App.tsx 64).  Each mapped
value is `some v` for a present `msg` field and `none` for `undefined`;
accessing `.msg` on a `null` entry throws a `TypeError` (result
`none` for the whole map), which the surrounding `catch` turns into the
status-line fallback. -/
def mapEntryMsgs : List Json → Option (List (Option Json))
  | [] => some []
  | Json.null :: _ => none
  | e :: rest => (mapEntryMsgs rest).map (fun l => getField e "msg" :: l)

/-- `.filter(Boolean).join(', ')` applied to the mapped `msg` values:
`undefined` and falsy values are dropped, the rest are joined. -/
def joinMsgs (msgs : List (Option Json)) : String :=
  String.intercalate ", " (((msgs.filterMap id).filter truthy).map jsToString)

/-- The `typeof payload?.message === 'string'` branch (App.tsx 66–68)
with its fall-through to the status line. -/
def messageOrFallback (payload : Json) (fallback : String) : String :=
  match getField payload "message" with
  | some (Json.str s) => s
  | _ => fallback

/-- `extractErrorMessage` (App.tsx 60–73).  `parsed` is the result of
`response.json()` (`none` on parse failure); `status` and `statusText`
come from the response. -/
def extractErrorMessage (parsed : Option Json) (status : Nat) (statusText : String) : String :=
  let fallback := toString status ++ " " ++ statusText
  match parsed with
  | none => fallback
  | some payload =>
      match getField payload "errors" with
      | some (Json.arr es) =>
          if es.isEmpty then
            messageOrFallback payload fallback
          else
            match mapEntryMsgs es with
            | none => fallback
            | some msgs => joinMsgs msgs
      | _ => messageOrFallback payload fallback

/-! ## Auth form (`AuthForm.tsx`)

`handleSubmit` (AuthForm.tsx 60–99) is embedded as a pure function from
the form's local state and the `isSubmitting`/`isLoading` props to the
new local state and the auth request issued (through `onLogin` /
`onRegister`), if any.  JavaScript `String.prototype.trim` is embedded
as `jsTrim`. -/

/-- Whitespace recognised by `trim` (the characters this codebase can
actually produce in its inputs). -/
def isWhitespaceChar (c : Char) : Bool :=
  c = ' ' || c = '\t' || c = '\n' || c = '\r'

/-- `String.prototype.trim`: strip leading and trailing whitespace. -/
def jsTrim (s : String) : String :=
  String.mk (((s.data.dropWhile isWhitespaceChar).reverse.dropWhile isWhitespaceChar).reverse)

/-- Local state of the `AuthForm` component (AuthForm.tsx 36–43). -/
structure AuthFormState where
  loginEmail : String
  loginPassword : String
  registerName : String
  registerEmail : String
  registerPassword : String
  registerConfirmPassword : String
  localError : Option String
deriving DecidableEq, Repr

/-- A request issued through the `onLogin` / `onRegister` callbacks,
carrying the exact payload passed (AuthForm.tsx 77 and 97). -/
inductive AuthRequest where
  | login (email password : String)
  | register (name email password confirmPassword : String)
deriving DecidableEq, Repr

/-- `handleSubmit` (AuthForm.tsx 60–99).  Early return while submitting
or loading; otherwise the parent error is cleared (`onClearError`) and
the branch for the active mode validates and either sets `localError`
or issues the request.  Note line 71: the login password is passed
through untrimmed, so the emptiness check is on the raw password. -/
def authSubmit (mode : AuthMode) (isSubmitting isLoading : Bool)
    (st : AuthFormState) : AuthFormState × List AuthRequest :=
  if isSubmitting || isLoading then
    (st, [])
  else
    let st0 := { st with localError := none }
    match mode with
    | AuthMode.login =>
        let trimmedEmail := jsTrim st0.loginEmail
        let password := st0.loginPassword
        if trimmedEmail = "" || password = "" then
          ({ st0 with localError := some "Enter your email and password." }, [])
        else
          (st0, [AuthRequest.login trimmedEmail password])
    | AuthMode.register =>
        let trimmedName := jsTrim st0.registerName
        let trimmedEmail := jsTrim st0.registerEmail
        let password := st0.registerPassword
        let confirmPassword := st0.registerConfirmPassword
        if trimmedName = "" || trimmedEmail = "" || password = "" then
          ({ st0 with localError := some "Complete all fields to continue." }, [])
        else if password.length < 6 then
          ({ st0 with localError := some "Password must be at least 6 characters." }, [])
        else if password ≠ confirmPassword then
          ({ st0 with localError := some "Passwords do not match." }, [])
        else
          (st0, [AuthRequest.register trimmedName trimmedEmail password confirmPassword])

/-! ## Kanban Categorizer (`TaskList.tsx`)

The `columns` array (TaskList.tsx 14–49) pairs each status key with a
matcher `task.status === key`; the component computes
`tasks.filter(column.matcher)` and the muted flag
`activeFilter !== 'all' && activeFilter !== column.key` per column
(TaskList.tsx 67–80). -/

/-- One rendered board column: its key, its tasks in server order, the
muted flag derived from the active filter, and the displayed count. -/
structure Column where
  key : TaskStatus
  tasks : List Task
  muted : Bool
  count : Nat
deriving DecidableEq, Repr

/-- The column keys in render order (TaskList.tsx 14–49). -/
def columnKeys : List TaskStatus :=
  [TaskStatus.todo, TaskStatus.in_progress, TaskStatus.done]

/-- `activeFilter !== column.key` as the source compares the 4-valued
filter with a 3-valued status key. -/
def filterMatchesStatus : FilterOption → TaskStatus → Bool
  | FilterOption.todo, TaskStatus.todo => true
  | FilterOption.in_progress, TaskStatus.in_progress => true
  | FilterOption.done, TaskStatus.done => true
  | _, _ => false

/-- The board as rendered by `TaskList` (TaskList.tsx 62–123):
per column, `columnTasks = tasks.filter(column.matcher)`,
`muted = activeFilter !== 'all' && activeFilter !== column.key`, and
the displayed count `columnTasks.length`. -/
def taskBoard (tasks : List Task) (activeFilter : FilterOption) : List Column :=
  columnKeys.map fun key =>
    let columnTasks := tasks.filter (fun task => task.status == key)
    { key := key
      tasks := columnTasks
      muted := decide (activeFilter ≠ FilterOption.all) && !(filterMatchesStatus activeFilter key)
      count := columnTasks.length }

/-! ## Concrete instances used to evaluate the definitions -/

/-- A sample authenticated user. -/
def sampleUser : User := { id := 1, name := "A", email := "a@b.com" }

/-- A sample staged task (id 7, as in the spec's cancel scenario). -/
def sampleTask7 : Task := { id := 7, title := "Ship release", status := TaskStatus.todo }

/-- A second sample task, in progress. -/
def sampleTask8 : Task := { id := 8, title := "Write docs", status := TaskStatus.in_progress }

/-- A third sample task, done. -/
def sampleTask9 : Task := { id := 9, title := "Review", status := TaskStatus.done }

/-- A sample creation payload with no explicit status. -/
def samplePayload : TaskPayload := { title := "Ship release" }

/-- The controller state of a logged-in, idle session. -/
def idleState : AppState :=
  { currentUser := some sampleUser
    authMode := AuthMode.login
    authLoading := false
    authSubmitting := false
    authError := none
    tasks := [sampleTask7, sampleTask8, sampleTask9]
    users := [sampleUser]
    filter := FilterOption.all
    tasksLoading := false
    usersLoading := false
    error := none
    isFormVisible := false
    editingTask := none
    isSubmitting := false
    busyTaskId := none
    pendingDeleteTask := none }

/-- A state with the edit form open on task 8, a deletion staged on task
7, a stale error banner, and a busy marker, exercising every field a
session reset must clear. -/
def loadedState : AppState :=
  { idleState with
    isFormVisible := true
    editingTask := some sampleTask8
    pendingDeleteTask := some sampleTask7
    error := some "stale error"
    filter := FilterOption.done
    busyTaskId := some 3 }

/-- A state with only the create form open. -/
def formOpenState : AppState := { idleState with isFormVisible := true }

/-- Auth form state whose password is whitespace only. -/
def whitespacePasswordForm : AuthFormState :=
  { loginEmail := " a@b.com "
    loginPassword := "   "
    registerName := ""
    registerEmail := ""
    registerPassword := ""
    registerConfirmPassword := ""
    localError := some "old error" }

/-- Error body `{errors: [{msg: "a"}, {msg: "b"}]}`. -/
def errorsPayload : Json :=
  Json.obj [("errors", Json.arr [Json.obj [("msg", Json.str "a")], Json.obj [("msg", Json.str "b")]])]

/-- Error body `{message: "boom"}`. -/
def messagePayload : Json := Json.obj [("message", Json.str "boom")]

/-- The state predicate of §4.2 after a delegated 401: identity absent,
both collections empty, pending deletion and busy marker absent, form
closed, filter reset, no error banner, and the fixed session-expired
message shown as the auth error. -/
def sessionClearedWithMessage (s : AppState) : Prop :=
  s.currentUser = none ∧ s.tasks = [] ∧ s.users = [] ∧
  s.pendingDeleteTask = none ∧ s.busyTaskId = none ∧
  s.isFormVisible = false ∧ s.filter = FilterOption.all ∧
  s.error = none ∧ s.authError = some sessionExpiredMessage

/-- A well-formed error entry: an object whose `msg` field is a
non-empty string (the shape the API contract of §6 sends). -/
def goodMsgEntry (e : Json) : Prop :=
  ∃ m : String, getField e "msg" = some (Json.str m) ∧ m ≠ ""

/-- The `msg` text of an error entry (empty when absent). -/
def msgText (e : Json) : String :=
  match getField e "msg" with
  | some (Json.str m) => m
  | _ => ""


/-! ## Claims -/

/-- C1: every authenticated request of the controller — the user-list
fetch, the task-list fetch, create, update, patch-status and delete —
reacts to a 401 outcome by delegating to `resetSession` with the fixed
session-expired message, so the resulting state has the identity
absent, both collections empty, the pending deletion and busy marker
absent, the form closed, the filter reset to `all`, no caller-side
error banner, and the fixed message as the auth error. -/
theorem C1_unauthorized_resets_session
    (s : AppState) (p : TaskPayload) (t et pt : Task) (st : TaskStatus)
    (ro : Outcome (List Task))
    (he : s.editingTask = some et) (hp : s.pendingDeleteTask = some pt) :
    sessionClearedWithMessage (loadUsersRun Outcome.unauthorized s).1 ∧
    sessionClearedWithMessage (refreshTasksRun Outcome.unauthorized s).1 ∧
    sessionClearedWithMessage (handleCreateTask p Outcome.unauthorized ro s).1 ∧
    sessionClearedWithMessage (handleUpdateTask p Outcome.unauthorized ro s).1 ∧
    sessionClearedWithMessage (handleUpdateStatus t st Outcome.unauthorized ro s).1 ∧
    sessionClearedWithMessage (handleConfirmDelete Outcome.unauthorized ro s).1 := by
  refine ⟨?_, ?_, ?_, ?_, ?_, ?_⟩ <;>
    simp [sessionClearedWithMessage, loadUsersRun, refreshTasksRun, handleCreateTask,
      handleCreateTaskStart, handleUpdateTask, handleUpdateStatus, handleUpdateStatusStart,
      handleConfirmDelete, handleUnauthorized, resetSession, closeForm, he, hp]

/-- C1 witness: the 401 reset evaluated on a fully loaded state. -/
theorem C1_unauthorized_resets_session_witness :
    sessionClearedWithMessage (loadUsersRun Outcome.unauthorized loadedState).1 ∧
    sessionClearedWithMessage (refreshTasksRun Outcome.unauthorized loadedState).1 ∧
    sessionClearedWithMessage
      (handleCreateTask samplePayload Outcome.unauthorized (Outcome.ok []) loadedState).1 ∧
    sessionClearedWithMessage
      (handleUpdateTask samplePayload Outcome.unauthorized (Outcome.ok []) loadedState).1 ∧
    sessionClearedWithMessage
      (handleUpdateStatus sampleTask8 TaskStatus.done Outcome.unauthorized (Outcome.ok [])
        loadedState).1 ∧
    sessionClearedWithMessage
      (handleConfirmDelete Outcome.unauthorized (Outcome.ok []) loadedState).1 :=
  C1_unauthorized_resets_session loadedState samplePayload sampleTask8 sampleTask8 sampleTask7
    TaskStatus.done (Outcome.ok []) rfl rfl

/-- C2 counterexample: the claim says a create, though it has no target,
still occupies the global busy-marker slot for the duration of the
call; in the code `handleCreateTask` never touches `busyTaskId` — its
prelude sets the separate `isSubmitting` flag and leaves the busy
marker absent. -/
theorem C2_counterexample_create_busy_free :
    (handleCreateTaskStart idleState).busyTaskId = none ∧
    (handleCreateTaskStart idleState).isSubmitting = true ∧
    (handleUpdateTaskStart { idleState with editingTask := some sampleTask8 }).busyTaskId =
      none := by
  refine ⟨rfl, rfl, rfl⟩

/-- C2 amended: patch-status and delete set the busy marker to the
target task's id at the start of the call and clear it unconditionally
(success, failure, or delegated 401) as the last step; create and
update never touch the busy marker — they instead set the separate
`isSubmitting` flag at the start and clear it unconditionally as the
last step. -/
theorem C2_busy_marker_protocol
    (s : AppState) (p : TaskPayload) (t et pt : Task) (st : TaskStatus)
    (o : Outcome Unit) (ro : Outcome (List Task))
    (he : s.editingTask = some et) (hp : s.pendingDeleteTask = some pt) :
    (handleUpdateStatusStart t s).busyTaskId = some t.id ∧
    (handleUpdateStatus t st o ro s).1.busyTaskId = none ∧
    (handleConfirmDeleteStart s).busyTaskId = some pt.id ∧
    (handleConfirmDelete o ro s).1.busyTaskId = none ∧
    (handleCreateTaskStart s).busyTaskId = s.busyTaskId ∧
    (handleCreateTaskStart s).isSubmitting = true ∧
    (handleCreateTask p o ro s).1.isSubmitting = false ∧
    (handleUpdateTaskStart s).busyTaskId = s.busyTaskId ∧
    (handleUpdateTaskStart s).isSubmitting = true ∧
    (handleUpdateTask p o ro s).1.isSubmitting = false := by
  cases o <;> cases ro <;>
    simp [handleUpdateStatus, handleUpdateStatusStart, handleConfirmDelete,
      handleConfirmDeleteStart, handleCreateTask, handleCreateTaskStart, handleUpdateTask,
      handleUpdateTaskStart, refreshTasksRun, handleUnauthorized, resetSession, closeForm,
      he, hp]

/-- C2 amended witness: the busy-marker / submission-flag protocol
evaluated on the loaded state. -/
theorem C2_busy_marker_protocol_witness :
    (handleUpdateStatusStart sampleTask8 loadedState).busyTaskId = some 8 ∧
    (handleUpdateStatus sampleTask8 TaskStatus.done (Outcome.ok ()) (Outcome.ok [])
      loadedState).1.busyTaskId = none ∧
    (handleConfirmDeleteStart loadedState).busyTaskId = some 7 ∧
    (handleConfirmDelete (Outcome.ok ()) (Outcome.ok []) loadedState).1.busyTaskId = none ∧
    (handleCreateTaskStart loadedState).busyTaskId = loadedState.busyTaskId ∧
    (handleCreateTaskStart loadedState).isSubmitting = true ∧
    (handleCreateTask samplePayload (Outcome.ok ()) (Outcome.ok [])
      loadedState).1.isSubmitting = false ∧
    (handleUpdateTaskStart loadedState).busyTaskId = loadedState.busyTaskId ∧
    (handleUpdateTaskStart loadedState).isSubmitting = true ∧
    (handleUpdateTask samplePayload (Outcome.ok ()) (Outcome.ok [])
      loadedState).1.isSubmitting = false :=
  C2_busy_marker_protocol loadedState samplePayload sampleTask8 sampleTask8 sampleTask7
    TaskStatus.done (Outcome.ok ()) (Outcome.ok []) rfl rfl

/-- C3: after a successful mutation the handler awaits a full
`refreshTasks` (so exactly one `GET /api/tasks` follows the mutation
request, and when that refresh succeeds the local collection equals the
freshly fetched list — never a local patch of the mutated task), while
a failed mutation issues no refresh; for create and update the form is
closed on success and left untouched on failure. -/
theorem C3_success_refreshes_failure_keeps_form
    (s : AppState) (p : TaskPayload) (t et pt : Task) (st : TaskStatus)
    (ro : Outcome (List Task)) (ts : List Task) (m : String)
    (he : s.editingTask = some et) (hp : s.pendingDeleteTask = some pt) :
    ((handleCreateTask p (Outcome.ok ()) ro s).2 =
        [Request.postTask (createBody p), Request.getTasks] ∧
      (handleCreateTask p (Outcome.ok ()) (Outcome.ok ts) s).1.tasks = ts ∧
      (handleCreateTask p (Outcome.ok ()) ro s).1.isFormVisible = false ∧
      (handleCreateTask p (Outcome.failure m) ro s).2 = [Request.postTask (createBody p)] ∧
      (handleCreateTask p (Outcome.failure m) ro s).1.isFormVisible = s.isFormVisible ∧
      (handleCreateTask p (Outcome.failure m) ro s).1.editingTask = s.editingTask) ∧
    ((handleUpdateTask p (Outcome.ok ()) ro s).2 =
        [Request.putTask et.id (updateBody p et), Request.getTasks] ∧
      (handleUpdateTask p (Outcome.ok ()) (Outcome.ok ts) s).1.tasks = ts ∧
      (handleUpdateTask p (Outcome.ok ()) ro s).1.isFormVisible = false ∧
      (handleUpdateTask p (Outcome.failure m) ro s).2 =
        [Request.putTask et.id (updateBody p et)] ∧
      (handleUpdateTask p (Outcome.failure m) ro s).1.isFormVisible = s.isFormVisible ∧
      (handleUpdateTask p (Outcome.failure m) ro s).1.editingTask = s.editingTask) ∧
    ((handleUpdateStatus t st (Outcome.ok ()) ro s).2 =
        [Request.patchTask t.id st, Request.getTasks] ∧
      (handleUpdateStatus t st (Outcome.ok ()) (Outcome.ok ts) s).1.tasks = ts ∧
      (handleUpdateStatus t st (Outcome.failure m) ro s).2 = [Request.patchTask t.id st]) ∧
    ((handleConfirmDelete (Outcome.ok ()) ro s).2 =
        [Request.deleteTask pt.id, Request.getTasks] ∧
      (handleConfirmDelete (Outcome.ok ()) (Outcome.ok ts) s).1.tasks = ts ∧
      (handleConfirmDelete (Outcome.failure m) ro s).2 = [Request.deleteTask pt.id]) := by
  refine ⟨⟨?_, ?_, ?_, ?_, ?_, ?_⟩, ⟨?_, ?_, ?_, ?_, ?_, ?_⟩, ⟨?_, ?_, ?_⟩, ⟨?_, ?_, ?_⟩⟩ <;>
    simp [handleCreateTask, handleCreateTaskStart, handleUpdateTask, handleUpdateStatus,
      handleUpdateStatusStart, handleConfirmDelete, refreshTasksRun, closeForm, he, hp]

/-- C3 witness: success triggers the refresh and closes the form,
failure leaves the form open, on the loaded state. -/
theorem C3_success_refreshes_failure_keeps_form_witness :
    ((handleCreateTask samplePayload (Outcome.ok ()) (Outcome.ok [sampleTask9])
        loadedState).2 = [Request.postTask (createBody samplePayload), Request.getTasks] ∧
      (handleCreateTask samplePayload (Outcome.ok ()) (Outcome.ok [sampleTask9])
        loadedState).1.tasks = [sampleTask9] ∧
      (handleCreateTask samplePayload (Outcome.ok ()) (Outcome.ok [sampleTask9])
        loadedState).1.isFormVisible = false ∧
      (handleCreateTask samplePayload (Outcome.failure "boom") (Outcome.ok [sampleTask9])
        loadedState).2 = [Request.postTask (createBody samplePayload)] ∧
      (handleCreateTask samplePayload (Outcome.failure "boom") (Outcome.ok [sampleTask9])
        loadedState).1.isFormVisible = loadedState.isFormVisible ∧
      (handleCreateTask samplePayload (Outcome.failure "boom") (Outcome.ok [sampleTask9])
        loadedState).1.editingTask = loadedState.editingTask) ∧
    ((handleUpdateTask samplePayload (Outcome.ok ()) (Outcome.ok [sampleTask9])
        loadedState).2 =
        [Request.putTask sampleTask8.id (updateBody samplePayload sampleTask8),
          Request.getTasks] ∧
      (handleUpdateTask samplePayload (Outcome.ok ()) (Outcome.ok [sampleTask9])
        loadedState).1.tasks = [sampleTask9] ∧
      (handleUpdateTask samplePayload (Outcome.ok ()) (Outcome.ok [sampleTask9])
        loadedState).1.isFormVisible = false ∧
      (handleUpdateTask samplePayload (Outcome.failure "boom") (Outcome.ok [sampleTask9])
        loadedState).2 =
        [Request.putTask sampleTask8.id (updateBody samplePayload sampleTask8)] ∧
      (handleUpdateTask samplePayload (Outcome.failure "boom") (Outcome.ok [sampleTask9])
        loadedState).1.isFormVisible = loadedState.isFormVisible ∧
      (handleUpdateTask samplePayload (Outcome.failure "boom") (Outcome.ok [sampleTask9])
        loadedState).1.editingTask = loadedState.editingTask) ∧
    ((handleUpdateStatus sampleTask8 TaskStatus.done (Outcome.ok ())
        (Outcome.ok [sampleTask9]) loadedState).2 =
        [Request.patchTask sampleTask8.id TaskStatus.done, Request.getTasks] ∧
      (handleUpdateStatus sampleTask8 TaskStatus.done (Outcome.ok ())
        (Outcome.ok [sampleTask9]) loadedState).1.tasks = [sampleTask9] ∧
      (handleUpdateStatus sampleTask8 TaskStatus.done (Outcome.failure "boom")
        (Outcome.ok [sampleTask9]) loadedState).2 =
        [Request.patchTask sampleTask8.id TaskStatus.done]) ∧
    ((handleConfirmDelete (Outcome.ok ()) (Outcome.ok [sampleTask9]) loadedState).2 =
        [Request.deleteTask sampleTask7.id, Request.getTasks] ∧
      (handleConfirmDelete (Outcome.ok ()) (Outcome.ok [sampleTask9])
        loadedState).1.tasks = [sampleTask9] ∧
      (handleConfirmDelete (Outcome.failure "boom") (Outcome.ok [sampleTask9])
        loadedState).2 = [Request.deleteTask sampleTask7.id]) :=
  C3_success_refreshes_failure_keeps_form loadedState samplePayload sampleTask8 sampleTask8
    sampleTask7 TaskStatus.done (Outcome.ok [sampleTask9]) [sampleTask9] "boom" rfl rfl

/-- C5: `handleCancelDelete` is ignored (the state, including the staged
deletion, is unchanged) exactly when the busy marker equals the pending
task's id; with no pending deletion it is a no-op; otherwise it clears
only the pending deletion. -/
theorem C5_cancel_delete_protocol (s : AppState) (t : Task) :
    (s.pendingDeleteTask = some t → s.busyTaskId = some t.id → handleCancelDelete s = s) ∧
    (s.pendingDeleteTask = none → handleCancelDelete s = s) ∧
    (s.pendingDeleteTask = some t → s.busyTaskId ≠ some t.id →
      handleCancelDelete s = { s with pendingDeleteTask := none }) := by
  refine ⟨fun hp hb => ?_, fun hp => ?_, fun hp hb => ?_⟩
  · simp [handleCancelDelete, hp, hb]
  · cases s
    simp_all [handleCancelDelete]
  · cases hb2 : s.busyTaskId with
    | none => simp [handleCancelDelete, hp, hb2]
    | some b =>
        have : b ≠ t.id := fun h => hb (by simp [hb2, h])
        simp [handleCancelDelete, hp, hb2, this]

/-- C5 witness: cancel ignored while the delete on task 7 is in flight,
a no-op with nothing staged, and clearing the staged deletion
otherwise. -/
theorem C5_cancel_delete_protocol_witness :
    (handleCancelDelete { loadedState with busyTaskId := some 7 } =
      { loadedState with busyTaskId := some 7 }) ∧
    (handleCancelDelete idleState = idleState) ∧
    (handleCancelDelete loadedState = { loadedState with pendingDeleteTask := none }) :=
  ⟨(C5_cancel_delete_protocol { loadedState with busyTaskId := some 7 } sampleTask7).1 rfl rfl,
    (C5_cancel_delete_protocol idleState sampleTask7).2.1 rfl,
    (C5_cancel_delete_protocol loadedState sampleTask7).2.2 rfl (by decide)⟩

/-- C6: a non-2xx, non-401 failure of any collection fetch or task
mutation stores the extracted message as the error banner (overwriting
any prior error) and leaves the task collection — and for the user
fetch also the user collection — unchanged. -/
theorem C6_failure_preserves_collections
    (s : AppState) (p : TaskPayload) (t et pt : Task) (st : TaskStatus)
    (ro : Outcome (List Task)) (m : String)
    (he : s.editingTask = some et) (hp : s.pendingDeleteTask = some pt) :
    ((refreshTasksRun (Outcome.failure m) s).1.error = some m ∧
      (refreshTasksRun (Outcome.failure m) s).1.tasks = s.tasks) ∧
    ((loadUsersRun (Outcome.failure m) s).1.error = some m ∧
      (loadUsersRun (Outcome.failure m) s).1.users = s.users ∧
      (loadUsersRun (Outcome.failure m) s).1.tasks = s.tasks) ∧
    ((handleCreateTask p (Outcome.failure m) ro s).1.error = some m ∧
      (handleCreateTask p (Outcome.failure m) ro s).1.tasks = s.tasks) ∧
    ((handleUpdateTask p (Outcome.failure m) ro s).1.error = some m ∧
      (handleUpdateTask p (Outcome.failure m) ro s).1.tasks = s.tasks) ∧
    ((handleUpdateStatus t st (Outcome.failure m) ro s).1.error = some m ∧
      (handleUpdateStatus t st (Outcome.failure m) ro s).1.tasks = s.tasks) ∧
    ((handleConfirmDelete (Outcome.failure m) ro s).1.error = some m ∧
      (handleConfirmDelete (Outcome.failure m) ro s).1.tasks = s.tasks) := by
  refine ⟨⟨?_, ?_⟩, ⟨?_, ?_, ?_⟩, ⟨?_, ?_⟩, ⟨?_, ?_⟩, ⟨?_, ?_⟩, ⟨?_, ?_⟩⟩ <;>
    simp [refreshTasksRun, loadUsersRun, handleCreateTask, handleCreateTaskStart,
      handleUpdateTask, handleUpdateStatus, handleUpdateStatusStart, handleConfirmDelete,
      he, hp]

/-- C6 witness: failures on the loaded state (which has a prior error
banner) overwrite the banner and leave the collections intact. -/
theorem C6_failure_preserves_collections_witness :
    ((refreshTasksRun (Outcome.failure "boom") loadedState).1.error = some "boom" ∧
      (refreshTasksRun (Outcome.failure "boom") loadedState).1.tasks = loadedState.tasks) ∧
    ((loadUsersRun (Outcome.failure "boom") loadedState).1.error = some "boom" ∧
      (loadUsersRun (Outcome.failure "boom") loadedState).1.users = loadedState.users ∧
      (loadUsersRun (Outcome.failure "boom") loadedState).1.tasks = loadedState.tasks) ∧
    ((handleCreateTask samplePayload (Outcome.failure "boom") (Outcome.ok [])
        loadedState).1.error = some "boom" ∧
      (handleCreateTask samplePayload (Outcome.failure "boom") (Outcome.ok [])
        loadedState).1.tasks = loadedState.tasks) ∧
    ((handleUpdateTask samplePayload (Outcome.failure "boom") (Outcome.ok [])
        loadedState).1.error = some "boom" ∧
      (handleUpdateTask samplePayload (Outcome.failure "boom") (Outcome.ok [])
        loadedState).1.tasks = loadedState.tasks) ∧
    ((handleUpdateStatus sampleTask8 TaskStatus.done (Outcome.failure "boom")
        (Outcome.ok []) loadedState).1.error = some "boom" ∧
      (handleUpdateStatus sampleTask8 TaskStatus.done (Outcome.failure "boom")
        (Outcome.ok []) loadedState).1.tasks = loadedState.tasks) ∧
    ((handleConfirmDelete (Outcome.failure "boom") (Outcome.ok [])
        loadedState).1.error = some "boom" ∧
      (handleConfirmDelete (Outcome.failure "boom") (Outcome.ok [])
        loadedState).1.tasks = loadedState.tasks) :=
  C6_failure_preserves_collections loadedState samplePayload sampleTask8 sampleTask8
    sampleTask7 TaskStatus.done (Outcome.ok []) "boom" rfl rfl

/-- C10: `handleConfirmDelete` with no pending deletion returns before
doing anything: no request is issued, the busy marker is not set, and
the whole state is unchanged. -/
theorem C10_confirm_delete_without_pending_noop
    (s : AppState) (o : Outcome Unit) (ro : Outcome (List Task))
    (h : s.pendingDeleteTask = none) :
    handleConfirmDelete o ro s = (s, []) := by
  simp [handleConfirmDelete, h]

/-- C10 witness: confirming with nothing staged on the idle state. -/
theorem C10_confirm_delete_without_pending_noop_witness :
    handleConfirmDelete (Outcome.ok ()) (Outcome.ok []) idleState = (idleState, []) :=
  C10_confirm_delete_without_pending_noop idleState (Outcome.ok ()) (Outcome.ok []) rfl

/-- C8 counterexample: the claim says login validates that the password
is non-empty after trimming before any network call; the code (AuthForm
line 71) passes the password through untrimmed, so a whitespace-only
password — empty after trimming — still reaches the network layer via
`onLogin`. -/
theorem C8_counterexample_untrimmed_password :
    jsTrim "   " = "" ∧
    (authSubmit AuthMode.login false false whitespacePasswordForm).2 =
      [AuthRequest.login "a@b.com" "   "] := by
  exact ⟨rfl, rfl⟩

/-- C8 amended: login submission validates that the email is non-empty
after trimming and that the password is non-empty as entered (the
password is not trimmed); when that validation fails, the fixed local
error message is shown and no login request is issued, and otherwise a
single login request with the trimmed email and the raw password is
issued. -/
theorem C8_login_validation
    (st : AuthFormState) :
    (jsTrim st.loginEmail = "" ∨ st.loginPassword = "" →
      (authSubmit AuthMode.login false false st).2 = [] ∧
      (authSubmit AuthMode.login false false st).1.localError =
        some "Enter your email and password.") ∧
    (jsTrim st.loginEmail ≠ "" → st.loginPassword ≠ "" →
      (authSubmit AuthMode.login false false st).2 =
        [AuthRequest.login (jsTrim st.loginEmail) st.loginPassword] ∧
      (authSubmit AuthMode.login false false st).1.localError = none) := by
  constructor
  · intro h
    rcases h with h | h <;> simp [authSubmit, h]
  · intro h1 h2
    simp [authSubmit, h1, h2]

/-- C8 amended witness: an empty email is rejected locally with no
request, and the whitespace-only password state issues a request. -/
theorem C8_login_validation_witness :
    ((authSubmit AuthMode.login false false
        { whitespacePasswordForm with loginEmail := "  " }).2 = [] ∧
      (authSubmit AuthMode.login false false
        { whitespacePasswordForm with loginEmail := "  " }).1.localError =
        some "Enter your email and password.") ∧
    ((authSubmit AuthMode.login false false whitespacePasswordForm).2 =
        [AuthRequest.login (jsTrim whitespacePasswordForm.loginEmail)
          whitespacePasswordForm.loginPassword] ∧
      (authSubmit AuthMode.login false false whitespacePasswordForm).1.localError = none) :=
  ⟨(C8_login_validation { whitespacePasswordForm with loginEmail := "  " }).1 (Or.inl rfl),
    (C8_login_validation whitespacePasswordForm).2 (by decide) (by decide)⟩

/-- C9 counterexample: the claim says opening the form while a deletion
is pending and staging a deletion while the form is open are both
prevented; the handlers carry no such guard — staging a deletion while
the create form is open leaves both non-absent, and so does opening the
create form while a deletion is staged. -/
theorem C9_counterexample_no_mutual_exclusion :
    ((handleDeleteTask sampleTask7 formOpenState).isFormVisible = true ∧
      (handleDeleteTask sampleTask7 formOpenState).pendingDeleteTask = some sampleTask7) ∧
    ((openCreateForm (handleDeleteTask sampleTask7 idleState)).isFormVisible = true ∧
      (openCreateForm (handleDeleteTask sampleTask7 idleState)).pendingDeleteTask =
        some sampleTask7) := by
  exact ⟨⟨rfl, rfl⟩, ⟨rfl, rfl⟩⟩

/-- C9 amended: none of the three transitions guards the other
workflow: `handleDeleteTask` stages the deletion and leaves the form
state untouched, and `openCreateForm` / the `onEdit` callback show the
form and leave the pending deletion untouched, so the mutual exclusion
of the two workflows is not enforced by these handlers (it rests only
on the presentation layer's modal overlay). -/
theorem C9_transitions_unguarded (s : AppState) (t : Task) :
    ((handleDeleteTask t s).pendingDeleteTask = some t ∧
      (handleDeleteTask t s).isFormVisible = s.isFormVisible ∧
      (handleDeleteTask t s).editingTask = s.editingTask) ∧
    ((openCreateForm s).isFormVisible = true ∧
      (openCreateForm s).editingTask = none ∧
      (openCreateForm s).pendingDeleteTask = s.pendingDeleteTask) ∧
    ((openEditForm t s).isFormVisible = true ∧
      (openEditForm t s).editingTask = some t ∧
      (openEditForm t s).pendingDeleteTask = s.pendingDeleteTask) := by
  exact ⟨⟨rfl, rfl, rfl⟩, ⟨rfl, rfl, rfl⟩, ⟨rfl, rfl, rfl⟩⟩

/-- Filtering a task list by the three statuses in column order and
concatenating yields a permutation of the list. -/
theorem status_filter_perm (l : List Task) :
    ((l.filter fun t => t.status == TaskStatus.todo) ++
      (l.filter fun t => t.status == TaskStatus.in_progress) ++
      (l.filter fun t => t.status == TaskStatus.done)).Perm l := by
  induction l with
  | nil => simp
  | cons a l ih =>
    cases h : a.status with
    | todo =>
        simp only [List.filter_cons, h]
        simpa using ih.cons a
    | in_progress =>
        simp only [List.filter_cons, h]
        simpa using (List.perm_middle.append_right _).trans (ih.cons a)
    | done =>
        simp only [List.filter_cons, h]
        simpa using List.perm_middle.trans (ih.cons a)

/-- C4: the kanban categorizer gives every column exactly the tasks
whose status matches its key, in server order (each column is a sublist
of the input); every input task lands in exactly one of the three
columns and the concatenation of the columns is a permutation of the
input; and the per-column task lists and counts are identical for every
filter value — the filter affects the muted emphasis only. -/
theorem C4_kanban_partition (tasks : List Task) (f g : FilterOption)
    (t : Task) (c : Column) (hc : c ∈ taskBoard tasks f) (ht : t ∈ tasks) :
    (t ∈ c.tasks ↔ t.status = c.key) ∧
    c.tasks.Sublist tasks ∧
    ((taskBoard tasks f).map Column.tasks).flatten.Perm tasks ∧
    (taskBoard tasks f).countP (fun col => decide (t ∈ col.tasks)) = 1 ∧
    (taskBoard tasks f).map Column.tasks = (taskBoard tasks g).map Column.tasks ∧
    (taskBoard tasks f).map Column.count = (taskBoard tasks g).map Column.count := by
  refine ⟨?_, ?_, ?_, ?_, ?_, ?_⟩
  · simp only [taskBoard, columnKeys, List.map_cons, List.map_nil, List.mem_cons,
      List.not_mem_nil, or_false] at hc
    rcases hc with rfl | rfl | rfl <;> simp [List.mem_filter, ht]
  · simp only [taskBoard, columnKeys, List.map_cons, List.map_nil, List.mem_cons,
      List.not_mem_nil, or_false] at hc
    rcases hc with rfl | rfl | rfl <;> exact List.filter_sublist tasks
  · simpa [taskBoard, columnKeys, List.append_assoc] using status_filter_perm tasks
  · simp only [taskBoard, columnKeys, List.map_cons, List.map_nil, List.countP_cons,
      List.countP_nil, List.mem_filter, ht, true_and]
    cases h : t.status <;> simp [h]
  · rfl
  · rfl

/-- C4 witness: the board of the three sample tasks under the `done`
filter, checked against the `all` filter. -/
theorem C4_kanban_partition_witness :
    (sampleTask8 ∈
        (Column.mk TaskStatus.in_progress [sampleTask8] true 1).tasks ↔
      sampleTask8.status = (Column.mk TaskStatus.in_progress [sampleTask8] true 1).key) ∧
    (Column.mk TaskStatus.in_progress [sampleTask8] true 1).tasks.Sublist
      [sampleTask7, sampleTask8, sampleTask9] ∧
    ((taskBoard [sampleTask7, sampleTask8, sampleTask9] FilterOption.done).map
      Column.tasks).flatten.Perm [sampleTask7, sampleTask8, sampleTask9] ∧
    (taskBoard [sampleTask7, sampleTask8, sampleTask9] FilterOption.done).countP
      (fun col => decide (sampleTask8 ∈ col.tasks)) = 1 ∧
    (taskBoard [sampleTask7, sampleTask8, sampleTask9] FilterOption.done).map Column.tasks =
      (taskBoard [sampleTask7, sampleTask8, sampleTask9] FilterOption.all).map Column.tasks ∧
    (taskBoard [sampleTask7, sampleTask8, sampleTask9] FilterOption.done).map Column.count =
      (taskBoard [sampleTask7, sampleTask8, sampleTask9] FilterOption.all).map Column.count :=
  C4_kanban_partition [sampleTask7, sampleTask8, sampleTask9] FilterOption.done
    FilterOption.all sampleTask8 (Column.mk TaskStatus.in_progress [sampleTask8] true 1)
    (by decide) (by decide)

/-- Mapping `err.msg` over a list of well-formed error entries never
throws and yields each entry's `msg` field. -/
theorem mapEntryMsgs_good :
    ∀ es : List Json, (∀ e ∈ es, goodMsgEntry e) →
      mapEntryMsgs es = some (es.map fun e => getField e "msg") := by
  intro es
  induction es with
  | nil => intro _; rfl
  | cons e rest ih =>
      intro h
      obtain ⟨m, hm, _⟩ := h e (List.mem_cons_self e rest)
      have hrest := ih fun x hx => h x (List.mem_cons_of_mem e hx)
      cases e <;> simp_all [mapEntryMsgs, getField]

/-- Filtering the mapped `msg` values of well-formed entries keeps them
all and stringifies them to the `msg` texts. -/
theorem filtered_msgs_good :
    ∀ es : List Json, (∀ e ∈ es, goodMsgEntry e) →
      ((es.filterMap fun e => getField e "msg").filter truthy).map jsToString =
        es.map msgText := by
  intro es
  induction es with
  | nil => intro _; rfl
  | cons e rest ih =>
      intro h
      obtain ⟨m, hm, hne⟩ := h e (List.mem_cons_self e rest)
      have hrest := ih fun x hx => h x (List.mem_cons_of_mem e hx)
      have ht : truthy (Json.str m) = true := by simp [truthy, hne]
      simp [List.filterMap_cons, hm, List.filter_cons, ht, hrest, msgText, jsToString]

/-- C7: the error extractor is total and follows the priority order: a
parse failure yields the status line; a body whose `errors` field is a
non-empty list of well-formed entries yields their `msg` fields joined
with `", "`; otherwise a string `message` field is returned verbatim;
otherwise the status line `"<status> <statusText>"`. -/
theorem C7_extractor_priority (status : Nat) (text : String) (payload : Json)
    (es : List Json) (m : String) :
    (extractErrorMessage none status text = toString status ++ " " ++ text) ∧
    (getField payload "errors" = some (Json.arr es) → es ≠ [] →
      (∀ e ∈ es, goodMsgEntry e) →
      extractErrorMessage (some payload) status text =
        String.intercalate ", " (es.map msgText)) ∧
    ((∀ l : List Json, getField payload "errors" ≠ some (Json.arr l)) →
      getField payload "message" = some (Json.str m) →
      extractErrorMessage (some payload) status text = m) ∧
    ((∀ l : List Json, getField payload "errors" ≠ some (Json.arr l)) →
      (∀ str : String, getField payload "message" ≠ some (Json.str str)) →
      extractErrorMessage (some payload) status text = toString status ++ " " ++ text) := by
  refine ⟨rfl, ?_, ?_, ?_⟩
  · intro hE hne hgood
    have hmap := mapEntryMsgs_good es hgood
    have hfil := filtered_msgs_good es hgood
    simp [extractErrorMessage, hE, hne, hmap, joinMsgs, hfil]
  · intro hE hM
    cases hcase : getField payload "errors" with
    | none => simp [extractErrorMessage, hcase, messageOrFallback, hM]
    | some v =>
        cases v <;> simp_all [extractErrorMessage, messageOrFallback]
  · intro hE hM
    cases hcase : getField payload "errors" with
    | none =>
        cases hmsg : getField payload "message" with
        | none => simp [extractErrorMessage, hcase, messageOrFallback, hmsg]
        | some w =>
            cases w <;> simp_all [extractErrorMessage, messageOrFallback]
    | some v =>
        cases v <;> simp_all [extractErrorMessage, messageOrFallback]

/-- C7 witness: the four priority branches evaluated on concrete
bodies. -/
theorem C7_extractor_priority_witness :
    (extractErrorMessage none 404 "Not Found" = "404 Not Found") ∧
    (extractErrorMessage (some errorsPayload) 400 "Bad Request" = "a, b") ∧
    (extractErrorMessage (some messagePayload) 422 "Unprocessable" = "boom") ∧
    (extractErrorMessage (some (Json.obj [])) 500 "Server Error" = "500 Server Error") := by
  refine ⟨(C7_extractor_priority 404 "Not Found" Json.null [] "").1, ?_, ?_, ?_⟩
  · have h := (C7_extractor_priority 400 "Bad Request" errorsPayload
      [Json.obj [("msg", Json.str "a")], Json.obj [("msg", Json.str "b")]] "").2.1
    have := h rfl (by simp) (by
      intro e he
      simp only [List.mem_cons, List.not_mem_nil, or_false] at he
      rcases he with rfl | rfl
      · exact ⟨"a", rfl, by simp⟩
      · exact ⟨"b", rfl, by simp⟩)
    simpa using this
  · have h := (C7_extractor_priority 422 "Unprocessable" messagePayload [] "boom").2.2.1
    exact h (by intro l hl; simp [messagePayload, getField, findField] at hl) rfl
  · have h := (C7_extractor_priority 500 "Server Error" (Json.obj []) [] "").2.2.2
    exact h (by intro l hl; simp [getField, findField] at hl)
      (by intro str hstr; simp [getField, findField] at hstr)

end TaskManager
